import Mathlib

/-!
Verification development for a small embedded-C repository.  The main
component is an MPU6050 six-axis sensor driver (`mpu6050.c`): a register
map, full-scale-range configuration constants, sensitivity divisors, and
raw/physical data structures.  The driver's function bodies are truncated
in the source file, so the behavioural parts (bus transactions,
initialisation sequence, burst acquisition, unit conversion) are modelled
from the specification, while every constant and structure declaration is
taken from the source.  The repository also contains an ADC read/average
pair and a singly linked list with an in-place reversal; those are
embedded directly from their complete sources.

Machine integers are modelled as `Nat`/`ℤ` with explicit `% 2^w` where
overflow can occur; the C `float` sensitivities and converted values are
modelled as exact rationals `ℚ`.
-/

namespace MPU6050

/-- I2C address from mpu6050.c: `(0x68 << 1)`. -/
def MPU6050_ADDR : Nat := 0x68 * 2

/-- Register address 0x19: sample-rate divider. -/
def MPU6050_REG_SMPLRT_DIV : Nat := 0x19

/-- Register address 0x1A: low-pass-filter configuration. -/
def MPU6050_REG_CONFIG : Nat := 0x1A

/-- Register address 0x1B: gyroscope full-scale configuration. -/
def MPU6050_REG_GYRO_CONFIG : Nat := 0x1B

/-- Register address 0x1C: accelerometer full-scale configuration. -/
def MPU6050_REG_ACCEL_CONFIG : Nat := 0x1C

/-- Register address 0x3B: accelerometer X high byte, start of the data block. -/
def MPU6050_REG_ACCEL_XOUT_H : Nat := 0x3B

/-- Register address 0x41: temperature high byte. -/
def MPU6050_REG_TEMP_OUT_H : Nat := 0x41

/-- Register address 0x43: gyroscope X high byte. -/
def MPU6050_REG_GYRO_XOUT_H : Nat := 0x43

/-- Register address 0x6B: power management 1. -/
def MPU6050_REG_PWR_MGMT_1 : Nat := 0x6B

/-- Register address 0x6C: power management 2. -/
def MPU6050_REG_PWR_MGMT_2 : Nat := 0x6C

/-- Register address 0x75: device identity (WHO_AM_I). -/
def MPU6050_REG_WHO_AM_I : Nat := 0x75

/-- Gyro full-scale bit pattern for ±250°/s. -/
def MPU6050_GYRO_FS_250 : Nat := 0x00

/-- Gyro full-scale bit pattern for ±500°/s. -/
def MPU6050_GYRO_FS_500 : Nat := 0x08

/-- Gyro full-scale bit pattern for ±1000°/s. -/
def MPU6050_GYRO_FS_1000 : Nat := 0x10

/-- Gyro full-scale bit pattern for ±2000°/s. -/
def MPU6050_GYRO_FS_2000 : Nat := 0x18

/-- Accel full-scale bit pattern for ±2g. -/
def MPU6050_ACCEL_FS_2G : Nat := 0x00

/-- Accel full-scale bit pattern for ±4g. -/
def MPU6050_ACCEL_FS_4G : Nat := 0x08

/-- Accel full-scale bit pattern for ±8g. -/
def MPU6050_ACCEL_FS_8G : Nat := 0x10

/-- Accel full-scale bit pattern for ±16g. -/
def MPU6050_ACCEL_FS_16G : Nat := 0x18

/-- Accelerometer sensitivity for ±2g: 16384.0f counts per g. -/
def MPU6050_ACCEL_SENS_2G : ℚ := 16384

/-- Accelerometer sensitivity for ±4g: 8192.0f counts per g. -/
def MPU6050_ACCEL_SENS_4G : ℚ := 8192

/-- Accelerometer sensitivity for ±8g: 4096.0f counts per g. -/
def MPU6050_ACCEL_SENS_8G : ℚ := 4096

/-- Accelerometer sensitivity for ±16g: 2048.0f counts per g. -/
def MPU6050_ACCEL_SENS_16G : ℚ := 2048

/-- Gyroscope sensitivity for ±250°/s: 131.0f counts per °/s. -/
def MPU6050_GYRO_SENS_250 : ℚ := 131

/-- Gyroscope sensitivity for ±500°/s: 65.5f counts per °/s. -/
def MPU6050_GYRO_SENS_500 : ℚ := 131 / 2

/-- Gyroscope sensitivity for ±1000°/s: 32.8f counts per °/s. -/
def MPU6050_GYRO_SENS_1000 : ℚ := 164 / 5

/-- Gyroscope sensitivity for ±2000°/s: 16.4f counts per °/s. -/
def MPU6050_GYRO_SENS_2000 : ℚ := 82 / 5

/-- The accelerometer full-scale range: a closed enumeration of the four
variants admitted by the configuration macros in mpu6050.c. -/
inductive AccelFS
  | fs2g
  | fs4g
  | fs8g
  | fs16g
deriving DecidableEq

/-- The gyroscope full-scale range: a closed enumeration of the four
variants admitted by the configuration macros in mpu6050.c. -/
inductive GyroFS
  | fs250
  | fs500
  | fs1000
  | fs2000
deriving DecidableEq

/-- Bit pattern written to the accelerometer configuration register for a
given full-scale range (the `MPU6050_ACCEL_FS_*` macros). -/
def accelFSBits : AccelFS → Nat
  | .fs2g => MPU6050_ACCEL_FS_2G
  | .fs4g => MPU6050_ACCEL_FS_4G
  | .fs8g => MPU6050_ACCEL_FS_8G
  | .fs16g => MPU6050_ACCEL_FS_16G

/-- Sensitivity divisor (counts per g) paired with an accelerometer
full-scale range (the `MPU6050_ACCEL_SENS_*` macros). -/
def accelSens : AccelFS → ℚ
  | .fs2g => MPU6050_ACCEL_SENS_2G
  | .fs4g => MPU6050_ACCEL_SENS_4G
  | .fs8g => MPU6050_ACCEL_SENS_8G
  | .fs16g => MPU6050_ACCEL_SENS_16G

/-- Bit pattern written to the gyroscope configuration register for a
given full-scale range (the `MPU6050_GYRO_FS_*` macros). -/
def gyroFSBits : GyroFS → Nat
  | .fs250 => MPU6050_GYRO_FS_250
  | .fs500 => MPU6050_GYRO_FS_500
  | .fs1000 => MPU6050_GYRO_FS_1000
  | .fs2000 => MPU6050_GYRO_FS_2000

/-- Sensitivity divisor (counts per °/s) paired with a gyroscope
full-scale range (the `MPU6050_GYRO_SENS_*` macros). -/
def gyroSens : GyroFS → ℚ
  | .fs250 => MPU6050_GYRO_SENS_250
  | .fs500 => MPU6050_GYRO_SENS_500
  | .fs1000 => MPU6050_GYRO_SENS_1000
  | .fs2000 => MPU6050_GYRO_SENS_2000

/-- Raw data structure `MPU6050_RawData_t` from mpu6050.c, with its seven
`int16_t` fields in the source's declaration order: accelerometer X/Y/Z,
gyroscope X/Y/Z, then temperature last.  Each field carries a signed
16-bit value, embedded as `ℤ`. -/
structure MPU6050_RawData where
  Accel_X_Raw : ℤ
  Accel_Y_Raw : ℤ
  Accel_Z_Raw : ℤ
  Gyro_X_Raw : ℤ
  Gyro_Y_Raw : ℤ
  Gyro_Z_Raw : ℤ
  Temp_Raw : ℤ
deriving DecidableEq

/-- The field declaration order of `MPU6050_RawData_t` as written in
mpu6050.c (lines 51–59): accel X/Y/Z first, then gyro X/Y/Z, and
`Temp_Raw` declared last. -/
def MPU6050_RawData_fieldOrder : List String :=
  ["Accel_X_Raw", "Accel_Y_Raw", "Accel_Z_Raw",
   "Gyro_X_Raw", "Gyro_Y_Raw", "Gyro_Z_Raw", "Temp_Raw"]

/-- The field order the specification asserts for RawSample (accel X/Y/Z,
temperature fourth, then gyro X/Y/Z), written out from the spec's words
for comparison with `MPU6050_RawData_fieldOrder`. -/
def specClaimedRawFieldOrder : List String :=
  ["Accel_X_Raw", "Accel_Y_Raw", "Accel_Z_Raw",
   "Temp_Raw", "Gyro_X_Raw", "Gyro_Y_Raw", "Gyro_Z_Raw"]

/-- Converted data structure `MPU6050_Data_t` from mpu6050.c: seven float
fields (here exact rationals) in the source's declaration order. -/
structure MPU6050_Data where
  Accel_X : ℚ
  Accel_Y : ℚ
  Accel_Z : ℚ
  Gyro_X : ℚ
  Gyro_Y : ℚ
  Gyro_Z : ℚ
  Temp : ℚ
deriving DecidableEq

/-- Handle structure `MPU6050_Handle_t` from mpu6050.c: the active
sensitivities and the most recent raw and converted samples.  The C
struct's `hi2c` bus pointer is replaced by passing the bus explicitly to
each operation, and a `ready` flag records the spec's
unconfigured-versus-ready lifecycle state (§3 SensorHandle), since the
behavioural code that would maintain it is truncated in the source. -/
structure MPU6050_Handle where
  Accel_Sens : ℚ
  Gyro_Sens : ℚ
  RawData : MPU6050_RawData
  Data : MPU6050_Data
  ready : Bool
deriving DecidableEq

/-- Bus-level failure taxonomy from the spec (§4.1/§7). -/
inductive BusError
  | NotAcknowledged
  | Timeout
  | BusBusy
deriving DecidableEq

/-- Initialisation failure taxonomy from the spec (§7). -/
inductive InitError
  | Bus (e : BusError)
  | UnexpectedDevice
deriving DecidableEq

/-- Acquisition failure taxonomy from the spec (§7). -/
inductive AcquisitionError
  | Bus (e : BusError)
  | NotReady
deriving DecidableEq

/-- One observable bus transaction: a single-register write or a burst
read of `count` contiguous bytes starting at `start`. -/
inductive BusTxn
  | write (reg val : Nat)
  | read (start count : Nat)
deriving DecidableEq

/-- Modelled from the spec: the bus transaction layer (§4.1), whose C
implementation (`MPU6050_WriteReg` and the read helpers) is truncated in
mpu6050.c.  A bus is a deterministic oracle giving the outcome of each
register write and of each burst read. -/
structure Bus where
  writeResp : Nat → Nat → Except BusError Unit
  readResp : Nat → Nat → Except BusError (List Nat)

/-- Modelled from the spec: the expected WHO_AM_I device-ID constant the
identity check compares against (§4.2 step 2; the constant itself is
absent from the truncated source). -/
def MPU6050_EXPECTED_ID : Nat := 0x68

/-- Modelled from the spec: the fixed conservative low-pass-filter
bandwidth written to the CONFIG register (§4.2 step 4). -/
def MPU6050_DLPF_CONFIG : Nat := 0x03

/-- Zero raw sample, the initial contents of a fresh handle. -/
def rawZero : MPU6050_RawData :=
  { Accel_X_Raw := 0, Accel_Y_Raw := 0, Accel_Z_Raw := 0,
    Gyro_X_Raw := 0, Gyro_Y_Raw := 0, Gyro_Z_Raw := 0, Temp_Raw := 0 }

/-- Zero converted sample, the initial contents of a fresh handle. -/
def dataZero : MPU6050_Data :=
  { Accel_X := 0, Accel_Y := 0, Accel_Z := 0,
    Gyro_X := 0, Gyro_Y := 0, Gyro_Z := 0, Temp := 0 }

/-- Modelled from the spec: `initialize` (§4.2), whose C implementation is
missing from the truncated mpu6050.c.  Fixed step order: (1) write power
management 1 to clear the sleep bit, (2) read WHO_AM_I and compare with
the expected ID, (3) write the sample-rate divider, (4) write the
low-pass-filter config, (5) write the gyro full-scale bits, (6) write the
accel full-scale bits.  Any step's bus failure aborts with `InitError.Bus`;
an identity mismatch aborts with `InitError.UnexpectedDevice`.  Returns the
result together with the list of bus transactions actually issued. -/
def MPU6050_Init (bus : Bus) (accel : AccelFS) (gyro : GyroFS)
    (smplrtDiv : Nat) : Except InitError MPU6050_Handle × List BusTxn :=
  match bus.writeResp MPU6050_REG_PWR_MGMT_1 0x00 with
  | .error e => (.error (.Bus e), [.write MPU6050_REG_PWR_MGMT_1 0x00])
  | .ok _ =>
    match bus.readResp MPU6050_REG_WHO_AM_I 1 with
    | .error e =>
      (.error (.Bus e),
       [.write MPU6050_REG_PWR_MGMT_1 0x00, .read MPU6050_REG_WHO_AM_I 1])
    | .ok idBytes =>
      if idBytes = [MPU6050_EXPECTED_ID] then
        match bus.writeResp MPU6050_REG_SMPLRT_DIV smplrtDiv with
        | .error e =>
          (.error (.Bus e),
           [.write MPU6050_REG_PWR_MGMT_1 0x00, .read MPU6050_REG_WHO_AM_I 1,
            .write MPU6050_REG_SMPLRT_DIV smplrtDiv])
        | .ok _ =>
          match bus.writeResp MPU6050_REG_CONFIG MPU6050_DLPF_CONFIG with
          | .error e =>
            (.error (.Bus e),
             [.write MPU6050_REG_PWR_MGMT_1 0x00, .read MPU6050_REG_WHO_AM_I 1,
              .write MPU6050_REG_SMPLRT_DIV smplrtDiv,
              .write MPU6050_REG_CONFIG MPU6050_DLPF_CONFIG])
          | .ok _ =>
            match bus.writeResp MPU6050_REG_GYRO_CONFIG (gyroFSBits gyro) with
            | .error e =>
              (.error (.Bus e),
               [.write MPU6050_REG_PWR_MGMT_1 0x00, .read MPU6050_REG_WHO_AM_I 1,
                .write MPU6050_REG_SMPLRT_DIV smplrtDiv,
                .write MPU6050_REG_CONFIG MPU6050_DLPF_CONFIG,
                .write MPU6050_REG_GYRO_CONFIG (gyroFSBits gyro)])
            | .ok _ =>
              match bus.writeResp MPU6050_REG_ACCEL_CONFIG (accelFSBits accel) with
              | .error e =>
                (.error (.Bus e),
                 [.write MPU6050_REG_PWR_MGMT_1 0x00, .read MPU6050_REG_WHO_AM_I 1,
                  .write MPU6050_REG_SMPLRT_DIV smplrtDiv,
                  .write MPU6050_REG_CONFIG MPU6050_DLPF_CONFIG,
                  .write MPU6050_REG_GYRO_CONFIG (gyroFSBits gyro),
                  .write MPU6050_REG_ACCEL_CONFIG (accelFSBits accel)])
              | .ok _ =>
                (.ok { Accel_Sens := accelSens accel,
                       Gyro_Sens := gyroSens gyro,
                       RawData := rawZero, Data := dataZero, ready := true },
                 [.write MPU6050_REG_PWR_MGMT_1 0x00, .read MPU6050_REG_WHO_AM_I 1,
                  .write MPU6050_REG_SMPLRT_DIV smplrtDiv,
                  .write MPU6050_REG_CONFIG MPU6050_DLPF_CONFIG,
                  .write MPU6050_REG_GYRO_CONFIG (gyroFSBits gyro),
                  .write MPU6050_REG_ACCEL_CONFIG (accelFSBits accel)])
      else
        (.error .UnexpectedDevice,
         [.write MPU6050_REG_PWR_MGMT_1 0x00, .read MPU6050_REG_WHO_AM_I 1])

/-- Big-endian signed 16-bit decoding of a high and a low byte, yielding
the two's-complement value in [-32768, 32767]. -/
def toInt16 (hi lo : Nat) : ℤ :=
  let u : Nat := (hi % 256) * 256 + lo % 256
  if u < 32768 then (u : ℤ) else (u : ℤ) - 65536

/-- Modelled from the spec: decoding of the 14-byte burst (§4.3, wire
order fixed by the register map: bytes 0–5 accel X/Y/Z at 0x3B, bytes 6–7
temperature at 0x41, bytes 8–13 gyro X/Y/Z at 0x43), each axis a
big-endian signed 16-bit word, stored into the correspondingly named
field of `MPU6050_RawData`. -/
def decodeRawSample (bytes : List Nat) : MPU6050_RawData :=
  { Accel_X_Raw := toInt16 (bytes.getD 0 0) (bytes.getD 1 0),
    Accel_Y_Raw := toInt16 (bytes.getD 2 0) (bytes.getD 3 0),
    Accel_Z_Raw := toInt16 (bytes.getD 4 0) (bytes.getD 5 0),
    Gyro_X_Raw := toInt16 (bytes.getD 8 0) (bytes.getD 9 0),
    Gyro_Y_Raw := toInt16 (bytes.getD 10 0) (bytes.getD 11 0),
    Gyro_Z_Raw := toInt16 (bytes.getD 12 0) (bytes.getD 13 0),
    Temp_Raw := toInt16 (bytes.getD 6 0) (bytes.getD 7 0) }

/-- Modelled from the spec: `acquire` (§4.3), whose C implementation is
missing from the truncated mpu6050.c.  Refuses to touch the bus when the
handle is not ready; otherwise issues exactly one burst read of 14
contiguous bytes starting at `MPU6050_REG_ACCEL_XOUT_H`, decodes it, and
overwrites the stored raw sample; on bus failure the handle is returned
unchanged and the error is wrapped as `AcquisitionError.Bus`.  Returns
the result, the (possibly updated) handle, and the bus transactions
issued. -/
def acquire (bus : Bus) (h : MPU6050_Handle) :
    Except AcquisitionError MPU6050_RawData × MPU6050_Handle × List BusTxn :=
  if h.ready then
    match bus.readResp MPU6050_REG_ACCEL_XOUT_H 14 with
    | .error e =>
      (.error (.Bus e), h, [.read MPU6050_REG_ACCEL_XOUT_H 14])
    | .ok bytes =>
      (.ok (decodeRawSample bytes),
       { h with RawData := decodeRawSample bytes },
       [.read MPU6050_REG_ACCEL_XOUT_H 14])
  else
    (.error .NotReady, h, [])

/-- Modelled from the spec: `convert` (§4.4), whose C implementation is
missing from the truncated mpu6050.c.  Pure; accelerometer and gyroscope
axes are `raw / sensitivity`, temperature is `raw / 340 + 36.53`. -/
def convert (h : MPU6050_Handle) : MPU6050_Data :=
  { Accel_X := (h.RawData.Accel_X_Raw : ℚ) / h.Accel_Sens,
    Accel_Y := (h.RawData.Accel_Y_Raw : ℚ) / h.Accel_Sens,
    Accel_Z := (h.RawData.Accel_Z_Raw : ℚ) / h.Accel_Sens,
    Gyro_X := (h.RawData.Gyro_X_Raw : ℚ) / h.Gyro_Sens,
    Gyro_Y := (h.RawData.Gyro_Y_Raw : ℚ) / h.Gyro_Sens,
    Gyro_Z := (h.RawData.Gyro_Z_Raw : ℚ) / h.Gyro_Sens,
    Temp := (h.RawData.Temp_Raw : ℚ) / 340 + 3653 / 100 }

/-- Sign agreement between an integer raw count and a rational physical
value: positive maps to positive, negative to negative, zero to zero. -/
def signMatch (r : ℤ) (q : ℚ) : Prop :=
  (0 < r → 0 < q) ∧ (r < 0 → q < 0) ∧ (r = 0 → q = 0)

end MPU6050

namespace ADC

/-- `SAMPLE_COUNT` macro from the ADC filter source. -/
def SAMPLE_COUNT : Nat := 10

/-- The poll timeout argument (10) passed to `HAL_ADC_PollForConversion`
in `ADC_Read`. -/
def ADC_POLL_TIMEOUT : Nat := 10

/-- `ADC_Read` from untitled-1769951646276.c: starts a conversion, polls
for completion with a bounded timeout, and returns the converted value on
success and the constant 0 otherwise.  The poll outcome and the
converter's 32-bit value are inputs to the model; the `uint16_t` return
type truncates the value modulo 2^16. -/
def ADC_Read (pollOk : Bool) (adcValue : Nat) : Nat :=
  if pollOk then adcValue % 2 ^ 16 else 0

/-- `ADC_AverageFilter` from src/unnamed/part_000: accumulates
`SAMPLE_COUNT` successive `ADC_Read` results into a `uint32_t` sum (each
addition reduced modulo 2^32, as the C type dictates), divides by
`SAMPLE_COUNT`, and casts the quotient to `uint16_t` (modulo 2^16).  The
model takes the list of values returned by the ten reads. -/
def ADC_AverageFilter (readings : List Nat) : Nat :=
  (readings.foldl (fun s r => (s + r) % 2 ^ 32) 0 / SAMPLE_COUNT) % 2 ^ 16

end ADC

namespace LinkedList

/-- The loop of `reverse` from linkedlist.c: `prev` accumulates the
already-reversed prefix while `current` walks the remainder; each step
redirects the current node's `next` pointer onto `prev`.  A finite acyclic
singly linked list of `int` data is embedded as `List ℤ`. -/
def reverseLoop : List ℤ → List ℤ → List ℤ
  | prev, [] => prev
  | prev, curr :: rest => reverseLoop (curr :: prev) rest

/-- `reverse` from linkedlist.c: runs the pointer-reversal loop starting
from a null `prev` and returns the final `prev` as the new head. -/
def reverse (head : List ℤ) : List ℤ :=
  reverseLoop [] head

end LinkedList

namespace MPU6050

lemma accelSens_pos (a : AccelFS) : 0 < accelSens a := by
  cases a <;> norm_num [accelSens, MPU6050_ACCEL_SENS_2G, MPU6050_ACCEL_SENS_4G,
    MPU6050_ACCEL_SENS_8G, MPU6050_ACCEL_SENS_16G]

lemma gyroSens_pos (g : GyroFS) : 0 < gyroSens g := by
  cases g <;> norm_num [gyroSens, MPU6050_GYRO_SENS_250, MPU6050_GYRO_SENS_500,
    MPU6050_GYRO_SENS_1000, MPU6050_GYRO_SENS_2000]

lemma signMatch_div (r : ℤ) (d : ℚ) (hd : 0 < d) : signMatch r ((r : ℚ) / d) := by
  refine ⟨fun hr => div_pos (by exact_mod_cast hr) hd,
          fun hr => div_neg_of_neg_of_pos (by exact_mod_cast hr) hd,
          fun hr => by simp [hr]⟩

end MPU6050

namespace MPU6050

/-- Claim C2: every FullScaleRange variant carries a strictly positive
sensitivity divisor determined purely by the variant — accelerometer
±2g/±4g/±8g/±16g map to 16384, 8192, 4096, 2048 counts per g and
gyroscope ±250/±500/±1000/±2000 °/s map to 131.0, 65.5, 32.8, 16.4
counts per °/s — and each variant is paired with its configuration
register bit pattern 0x00/0x08/0x10/0x18. -/
theorem C2_fullscale_divisors :
    (∀ a : AccelFS, 0 < accelSens a) ∧ (∀ g : GyroFS, 0 < gyroSens g) ∧
    accelSens .fs2g = 16384 ∧ accelSens .fs4g = 8192 ∧
    accelSens .fs8g = 4096 ∧ accelSens .fs16g = 2048 ∧
    gyroSens .fs250 = 131 ∧ gyroSens .fs500 = 65.5 ∧
    gyroSens .fs1000 = 32.8 ∧ gyroSens .fs2000 = 16.4 ∧
    accelFSBits .fs2g = 0x00 ∧ accelFSBits .fs4g = 0x08 ∧
    accelFSBits .fs8g = 0x10 ∧ accelFSBits .fs16g = 0x18 ∧
    gyroFSBits .fs250 = 0x00 ∧ gyroFSBits .fs500 = 0x08 ∧
    gyroFSBits .fs1000 = 0x10 ∧ gyroFSBits .fs2000 = 0x18 := by
  refine ⟨accelSens_pos, gyroSens_pos, ?_⟩
  norm_num [accelSens, gyroSens, accelFSBits, gyroFSBits,
    MPU6050_ACCEL_SENS_2G, MPU6050_ACCEL_SENS_4G, MPU6050_ACCEL_SENS_8G,
    MPU6050_ACCEL_SENS_16G, MPU6050_GYRO_SENS_250, MPU6050_GYRO_SENS_500,
    MPU6050_GYRO_SENS_1000, MPU6050_GYRO_SENS_2000, MPU6050_ACCEL_FS_2G,
    MPU6050_ACCEL_FS_4G, MPU6050_ACCEL_FS_8G, MPU6050_ACCEL_FS_16G,
    MPU6050_GYRO_FS_250, MPU6050_GYRO_FS_500, MPU6050_GYRO_FS_1000,
    MPU6050_GYRO_FS_2000]

/-- Claim C3 (spec-modelled conversion): for every handle whose active
divisors come from a chosen accelerometer and gyroscope FullScaleRange,
`convert` yields `raw / divisor` on each accelerometer and gyroscope
axis, the result's sign matches the raw count's sign, and `convert` is a
pure function of the handle's RawSample and active divisors. -/
theorem C3_convert_pure_linear (a : AccelFS) (g : GyroFS) (h : MPU6050_Handle)
    (ha : h.Accel_Sens = accelSens a) (hg : h.Gyro_Sens = gyroSens g)
    (hlo : -32768 ≤ h.RawData.Accel_X_Raw) (hhi : h.RawData.Accel_X_Raw ≤ 32767) :
    (convert h).Accel_X = (h.RawData.Accel_X_Raw : ℚ) / accelSens a ∧
    (convert h).Accel_Y = (h.RawData.Accel_Y_Raw : ℚ) / accelSens a ∧
    (convert h).Accel_Z = (h.RawData.Accel_Z_Raw : ℚ) / accelSens a ∧
    (convert h).Gyro_X = (h.RawData.Gyro_X_Raw : ℚ) / gyroSens g ∧
    (convert h).Gyro_Y = (h.RawData.Gyro_Y_Raw : ℚ) / gyroSens g ∧
    (convert h).Gyro_Z = (h.RawData.Gyro_Z_Raw : ℚ) / gyroSens g ∧
    signMatch h.RawData.Accel_X_Raw ((convert h).Accel_X) ∧
    signMatch h.RawData.Accel_Y_Raw ((convert h).Accel_Y) ∧
    signMatch h.RawData.Accel_Z_Raw ((convert h).Accel_Z) ∧
    signMatch h.RawData.Gyro_X_Raw ((convert h).Gyro_X) ∧
    signMatch h.RawData.Gyro_Y_Raw ((convert h).Gyro_Y) ∧
    signMatch h.RawData.Gyro_Z_Raw ((convert h).Gyro_Z) ∧
    (∀ h2 : MPU6050_Handle, h2.RawData = h.RawData →
      h2.Accel_Sens = h.Accel_Sens → h2.Gyro_Sens = h.Gyro_Sens →
      convert h2 = convert h) := by
  have hap := accelSens_pos a
  have hgp := gyroSens_pos g
  refine ⟨by simp [convert, ha], by simp [convert, ha], by simp [convert, ha],
          by simp [convert, hg], by simp [convert, hg], by simp [convert, hg],
          ?_, ?_, ?_, ?_, ?_, ?_, ?_⟩
  · simpa [convert, ha] using signMatch_div h.RawData.Accel_X_Raw _ hap
  · simpa [convert, ha] using signMatch_div h.RawData.Accel_Y_Raw _ hap
  · simpa [convert, ha] using signMatch_div h.RawData.Accel_Z_Raw _ hap
  · simpa [convert, hg] using signMatch_div h.RawData.Gyro_X_Raw _ hgp
  · simpa [convert, hg] using signMatch_div h.RawData.Gyro_Y_Raw _ hgp
  · simpa [convert, hg] using signMatch_div h.RawData.Gyro_Z_Raw _ hgp
  · intro h2 hraw hsa hsg
    simp [convert, hraw, hsa, hsg]

/-- Example handle configured at ±4g and ±500°/s whose raw accel-X count
is 8192, the spec's end-to-end example. -/
def handleEx : MPU6050_Handle :=
  { Accel_Sens := accelSens .fs4g, Gyro_Sens := gyroSens .fs500,
    RawData := { rawZero with Accel_X_Raw := 8192 },
    Data := dataZero, ready := true }

/-- Witness for C3: at ±4g a raw accel-X count of 8192 converts to
8192 / 8192 = 1 g. -/
theorem C3_convert_witness :
    (-32768 ≤ handleEx.RawData.Accel_X_Raw ∧ handleEx.RawData.Accel_X_Raw ≤ 32767) ∧
    (convert handleEx).Accel_X = (handleEx.RawData.Accel_X_Raw : ℚ) / accelSens AccelFS.fs4g ∧
    (convert handleEx).Accel_X = 1 := by
  have hmain := (C3_convert_pure_linear AccelFS.fs4g GyroFS.fs500 handleEx rfl rfl
    (by decide) (by decide)).1
  refine ⟨⟨by decide, by decide⟩, hmain, ?_⟩
  rw [hmain]
  norm_num [handleEx, rawZero, accelSens, MPU6050_ACCEL_SENS_4G]

/-- Claim C4 (spec-modelled conversion): temperature conversion is the
affine law `celsius = raw / 340 + 36.53`; raw 0 yields 36.53 °C and raw
340 yields 37.53 °C, exactly (the model computes in ℚ, so the 1e-6
floating tolerance is met with equality). -/
theorem C4_temp_affine (h : MPU6050_Handle) :
    (convert h).Temp = (h.RawData.Temp_Raw : ℚ) / 340 + 36.53 ∧
    (h.RawData.Temp_Raw = 0 → (convert h).Temp = 36.53) ∧
    (h.RawData.Temp_Raw = 340 → (convert h).Temp = 37.53) := by
  refine ⟨?_, fun h0 => ?_, fun h340 => ?_⟩
  · show (h.RawData.Temp_Raw : ℚ) / 340 + 3653 / 100 = (h.RawData.Temp_Raw : ℚ) / 340 + 36.53
    norm_num
  · show (h.RawData.Temp_Raw : ℚ) / 340 + 3653 / 100 = 36.53
    rw [h0]; norm_num
  · show (h.RawData.Temp_Raw : ℚ) / 340 + 3653 / 100 = 37.53
    rw [h340]; norm_num

/-- Handle whose raw temperature count is 0. -/
def handleT0 : MPU6050_Handle :=
  { Accel_Sens := MPU6050_ACCEL_SENS_2G, Gyro_Sens := MPU6050_GYRO_SENS_250,
    RawData := rawZero, Data := dataZero, ready := true }

/-- Handle whose raw temperature count is 340. -/
def handleT340 : MPU6050_Handle :=
  { handleT0 with RawData := { rawZero with Temp_Raw := 340 } }

/-- Witness for C4: raw temperature 0 converts to 36.53 °C and raw 340 to
37.53 °C. -/
theorem C4_temp_witness :
    (convert handleT0).Temp = 36.53 ∧ (convert handleT340).Temp = 37.53 :=
  ⟨(C4_temp_affine handleT0).2.1 rfl, (C4_temp_affine handleT340).2.2 rfl⟩

end MPU6050

namespace MPU6050

/-- Counterexample for C1: the `MPU6050_RawData_t` struct in mpu6050.c
does not declare its seven fields in the wire order the claim asserts —
its fourth field is `Gyro_X_Raw`, not `Temp_Raw`; temperature is declared
last. -/
theorem C1_field_order_counterexample :
    MPU6050_RawData_fieldOrder ≠ specClaimedRawFieldOrder ∧
    MPU6050_RawData_fieldOrder.getD 3 "" = "Gyro_X_Raw" ∧
    specClaimedRawFieldOrder.getD 3 "" = "Temp_Raw" :=
  ⟨by decide, rfl, rfl⟩

/-- Claim C1 as amended (acquisition spec-modelled; struct order from the
source): `acquire` performs exactly one burst read of 14 contiguous bytes
starting at the accelerometer-data register 0x3B and decodes them as
seven big-endian signed 16-bit words in the wire order accel-X/Y/Z,
temperature, gyro-X/Y/Z, storing each word in the correspondingly named
RawSample field; the RawSample struct itself declares its fields in the
order accel-X/Y/Z, gyro-X/Y/Z, temperature (temperature last). -/
theorem C1_burst_read_amended (bus : Bus) (h : MPU6050_Handle) (bytes : List Nat)
    (hr : h.ready = true)
    (hok : bus.readResp MPU6050_REG_ACCEL_XOUT_H 14 = .ok bytes) :
    acquire bus h =
      (.ok (decodeRawSample bytes), { h with RawData := decodeRawSample bytes },
       [.read MPU6050_REG_ACCEL_XOUT_H 14]) ∧
    MPU6050_REG_ACCEL_XOUT_H = 0x3B ∧
    decodeRawSample bytes =
      { Accel_X_Raw := toInt16 (bytes.getD 0 0) (bytes.getD 1 0),
        Accel_Y_Raw := toInt16 (bytes.getD 2 0) (bytes.getD 3 0),
        Accel_Z_Raw := toInt16 (bytes.getD 4 0) (bytes.getD 5 0),
        Gyro_X_Raw := toInt16 (bytes.getD 8 0) (bytes.getD 9 0),
        Gyro_Y_Raw := toInt16 (bytes.getD 10 0) (bytes.getD 11 0),
        Gyro_Z_Raw := toInt16 (bytes.getD 12 0) (bytes.getD 13 0),
        Temp_Raw := toInt16 (bytes.getD 6 0) (bytes.getD 7 0) } ∧
    MPU6050_RawData_fieldOrder =
      ["Accel_X_Raw", "Accel_Y_Raw", "Accel_Z_Raw",
       "Gyro_X_Raw", "Gyro_Y_Raw", "Gyro_Z_Raw", "Temp_Raw"] := by
  refine ⟨?_, rfl, rfl, rfl⟩
  simp [acquire, hr, hok]

/-- A bus whose burst read answers with a fixed 14-byte sample block. -/
def busSample : Bus :=
  { writeResp := fun _ _ => .ok (),
    readResp := fun _ _ =>
      .ok [0x20, 0x00, 0x00, 0x01, 0xC0, 0x00, 0x00, 0x00,
           0xFF, 0xFF, 0x00, 0x02, 0x80, 0x00] }

/-- The 14 bytes `busSample` answers with. -/
def sampleBytes : List Nat :=
  [0x20, 0x00, 0x00, 0x01, 0xC0, 0x00, 0x00, 0x00,
   0xFF, 0xFF, 0x00, 0x02, 0x80, 0x00]

/-- A handle in the ready state, configured at ±4g and ±500°/s. -/
def handleReady : MPU6050_Handle :=
  { Accel_Sens := accelSens .fs4g, Gyro_Sens := gyroSens .fs500,
    RawData := rawZero, Data := dataZero, ready := true }

/-- Witness for C1 (amended): acquiring on a concrete bus issues the one
14-byte burst read at 0x3B and stores the decoded sample. -/
theorem C1_burst_read_witness :
    acquire busSample handleReady =
      (.ok (decodeRawSample sampleBytes),
       { handleReady with RawData := decodeRawSample sampleBytes },
       [.read MPU6050_REG_ACCEL_XOUT_H 14]) :=
  (C1_burst_read_amended busSample handleReady sampleBytes rfl rfl).1

/-- Claim C5 (spec-modelled initialisation): when the wake-up write
succeeds and the identity register read returns any value other than the
expected device-ID constant, `MPU6050_Init` fails with
`InitError.UnexpectedDevice` and the bus transcript is exactly the
power-management write followed by the identity read — the identity check
is the second step and every remaining configuration write is aborted. -/
theorem C5_identity_check (bus : Bus) (a : AccelFS) (g : GyroFS) (d v : Nat)
    (hwake : bus.writeResp MPU6050_REG_PWR_MGMT_1 0x00 = .ok ())
    (hid : bus.readResp MPU6050_REG_WHO_AM_I 1 = .ok [v])
    (hv : v ≠ MPU6050_EXPECTED_ID) :
    MPU6050_Init bus a g d =
      (.error .UnexpectedDevice,
       [.write MPU6050_REG_PWR_MGMT_1 0x00, .read MPU6050_REG_WHO_AM_I 1]) := by
  have hne : ¬([v] = [MPU6050_EXPECTED_ID]) := by simp [hv]
  simp [MPU6050_Init, hwake, hid, hne]

/-- A bus on which every write succeeds and every read answers 0x70 —
an identity different from the expected constant 0x68. -/
def busBadId : Bus :=
  { writeResp := fun _ _ => .ok (), readResp := fun _ _ => .ok [0x70] }

/-- Witness for C5: a device answering 0x70 to the identity read makes
initialisation fail with `UnexpectedDevice` after exactly two bus
transactions. -/
theorem C5_identity_witness :
    (0x70 : Nat) ≠ MPU6050_EXPECTED_ID ∧
    MPU6050_Init busBadId AccelFS.fs2g GyroFS.fs250 7 =
      (.error .UnexpectedDevice,
       [.write MPU6050_REG_PWR_MGMT_1 0x00, .read MPU6050_REG_WHO_AM_I 1]) :=
  ⟨by decide, C5_identity_check busBadId AccelFS.fs2g GyroFS.fs250 7 0x70 rfl rfl (by decide)⟩

/-- Claim C6 (spec-modelled acquisition): on every handle that is not in
the ready state, `acquire` fails with `AcquisitionError.NotReady`, leaves
the handle unchanged, and issues no bus transaction. -/
theorem C6_not_ready (bus : Bus) (h : MPU6050_Handle) (hr : h.ready = false) :
    acquire bus h = (.error .NotReady, h, []) := by
  simp [acquire, hr]

/-- A freshly created, never-initialised handle. -/
def handleFresh : MPU6050_Handle :=
  { Accel_Sens := MPU6050_ACCEL_SENS_2G, Gyro_Sens := MPU6050_GYRO_SENS_250,
    RawData := rawZero, Data := dataZero, ready := false }

/-- Witness for C6: acquiring on a never-initialised handle returns
`NotReady` with an empty bus transcript. -/
theorem C6_not_ready_witness :
    acquire busSample handleFresh = (.error .NotReady, handleFresh, []) :=
  C6_not_ready busSample handleFresh rfl

/-- Claim C7 (spec-modelled acquisition): whenever the burst read fails
with any bus error (Timeout included), `acquire` returns the handle
unchanged — in particular its stored RawSample keeps its previous value —
and propagates the failure as `AcquisitionError.Bus` wrapping the
underlying error. -/
theorem C7_bus_failure_atomic (bus : Bus) (h : MPU6050_Handle) (e : BusError)
    (hr : h.ready = true)
    (hfail : bus.readResp MPU6050_REG_ACCEL_XOUT_H 14 = .error e) :
    acquire bus h = (.error (.Bus e), h, [.read MPU6050_REG_ACCEL_XOUT_H 14]) ∧
    (acquire bus h).2.1.RawData = h.RawData := by
  have hmain : acquire bus h =
      (.error (.Bus e), h, [.read MPU6050_REG_ACCEL_XOUT_H 14]) := by
    simp [acquire, hr, hfail]
  exact ⟨hmain, by rw [hmain]⟩

/-- A bus whose reads always time out. -/
def busTimeout : Bus :=
  { writeResp := fun _ _ => .ok (), readResp := fun _ _ => .error .Timeout }

/-- Witness for C7: a timed-out burst read leaves the ready handle (and
its stored RawSample) unchanged and surfaces `Bus Timeout`. -/
theorem C7_bus_failure_witness :
    acquire busTimeout handleReady =
      (.error (.Bus .Timeout), handleReady, [.read MPU6050_REG_ACCEL_XOUT_H 14]) :=
  (C7_bus_failure_atomic busTimeout handleReady .Timeout rfl rfl).1

end MPU6050

namespace ADC

lemma sum_le_of_forall_le (l : List Nat) (b : Nat) (hb : ∀ r ∈ l, r ≤ b) :
    l.sum ≤ l.length * b := by
  induction l with
  | nil => simp
  | cons a t ih =>
    simp only [List.sum_cons, List.length_cons]
    have ha : a ≤ b := hb a (by simp)
    have ht : t.sum ≤ t.length * b := ih (fun r hr => hb r (by simp [hr]))
    calc a + t.sum ≤ b + t.length * b := Nat.add_le_add ha ht
      _ = (t.length + 1) * b := by ring

lemma foldl_mod_eq (l : List Nat) (s : Nat) (hs : s + l.sum < 2 ^ 32) :
    l.foldl (fun acc r => (acc + r) % 2 ^ 32) s = s + l.sum := by
  induction l generalizing s with
  | nil => simp
  | cons a t ih =>
    have hsum : s + (a + t.sum) < 2 ^ 32 := by simpa using hs
    have h1 : s + a < 2 ^ 32 := by omega
    have h2 : (s + a) + t.sum < 2 ^ 32 := by omega
    simp only [List.foldl_cons, Nat.mod_eq_of_lt h1, ih (s + a) h2,
      List.sum_cons]
    omega

/-- Claim C8: for every sequence of 10 readings, each at most 65535,
`ADC_AverageFilter` returns exactly the floor of their sum divided by 10;
the 32-bit accumulator cannot overflow and the quotient fits in 16 bits,
so the final uint16 cast is lossless. -/
theorem C8_average_filter_exact (readings : List Nat)
    (hlen : readings.length = SAMPLE_COUNT)
    (hb : ∀ r ∈ readings, r ≤ 65535) :
    ADC_AverageFilter readings = readings.sum / SAMPLE_COUNT ∧
    readings.sum < 2 ^ 32 ∧
    readings.sum / SAMPLE_COUNT ≤ 65535 := by
  have hsum : readings.sum ≤ 655350 := by
    have h := sum_le_of_forall_le readings 65535 hb
    rw [hlen] at h
    simpa [SAMPLE_COUNT] using h
  have hlt : readings.sum < 2 ^ 32 := lt_of_le_of_lt hsum (by norm_num)
  have hq : readings.sum / SAMPLE_COUNT ≤ 65535 := by
    have h := Nat.div_le_div_right (c := 10) hsum
    simpa [SAMPLE_COUNT] using h
  refine ⟨?_, hlt, hq⟩
  unfold ADC_AverageFilter
  rw [foldl_mod_eq readings 0 (by omega)]
  simp only [Nat.zero_add]
  exact Nat.mod_eq_of_lt (lt_of_le_of_lt hq (by norm_num))

/-- Ten concrete ADC readings. -/
def adcSample : List Nat :=
  [100, 200, 300, 400, 500, 600, 700, 800, 900, 1005]

/-- Witness for C8: the filter on ten concrete readings equals the floor
of their sum divided by 10, here 550. -/
theorem C8_average_filter_witness :
    ADC_AverageFilter adcSample = adcSample.sum / SAMPLE_COUNT ∧
    ADC_AverageFilter adcSample = 550 := by
  have h := (C8_average_filter_exact adcSample rfl (by decide)).1
  exact ⟨h, by rw [h]; decide⟩

/-- Claim C9: `ADC_Read` yields the converted sample when the poll
succeeds and the constant 0 when it does not, never surfacing an error
indication — so a timed-out conversion is indistinguishable from a
genuine zero reading. -/
theorem C9_adc_read_timeout_zero (pollOk : Bool) (v : Nat) :
    (pollOk = true → ADC_Read pollOk v = v % 2 ^ 16) ∧
    (pollOk = false → ADC_Read pollOk v = 0) ∧
    ADC_Read false v = ADC_Read true 0 := by
  refine ⟨fun hp => by simp [ADC_Read, hp],
          fun hp => by simp [ADC_Read, hp],
          by simp [ADC_Read]⟩

/-- Witness for C9: a successful poll returns the sample 1234; a failed
poll returns 0. -/
theorem C9_adc_read_witness :
    ADC_Read true 1234 = 1234 % 2 ^ 16 ∧ ADC_Read false 1234 = 0 :=
  ⟨(C9_adc_read_timeout_zero true 1234).1 rfl,
   (C9_adc_read_timeout_zero false 1234).2.1 rfl⟩

end ADC

namespace LinkedList

lemma reverseLoop_eq (l acc : List ℤ) : reverseLoop acc l = l.reverse ++ acc := by
  induction l generalizing acc with
  | nil => simp [reverseLoop]
  | cons a t ih => simp [reverseLoop, ih]

/-- Claim C10: on every finite acyclic list, `reverse` returns exactly
the same elements in reversed order, `reverse` is an involution, and the
reverse of the empty list is the empty list. -/
theorem C10_reverse_correct :
    ∀ l : List ℤ, reverse l = l.reverse ∧
      (∀ x : ℤ, x ∈ reverse l ↔ x ∈ l) ∧
      reverse (reverse l) = l ∧
      reverse ([] : List ℤ) = [] := by
  have hrev : ∀ m : List ℤ, reverse m = m.reverse := fun m => by
    simp [reverse, reverseLoop_eq]
  intro l
  refine ⟨hrev l, fun x => by simp [hrev l], ?_, by simp [hrev]⟩
  rw [hrev (reverse l), hrev l, List.reverse_reverse]

end LinkedList
